import Mathlib

/-!
Verification development for the solar-panels-shadow-simulator repository.

Shallow embedding of the shadow-simulation engine:
* `CoordinateTransformationService` (src/services/CoordinateTransformationService.ts)
* `PanelSpacingService` (src/services/PanelSpacingService.ts)
* the row/connector layout loop of `RoofSolarInstallation`
  (components/.../solar-panels/RoofSolarInstallation.tsx)
* the sun-position post-processing of `calculateSunPosition`
  (components/simulation/core/ShadowSimulator.tsx)
* the per-cell occlusion sampler of `SmartSolarCell`
  (components/solar-panels/SmartSolarCell.tsx)
* the timezone-aware local-time to UTC conversion
  (`fromZonedTime` of date-fns-tz, modelled for Europe/Amsterdam)

JavaScript floating-point numbers are modelled as real numbers; calendar
arithmetic is modelled with naturals and integers (exact in the source too).
-/

noncomputable section

/-! ## CoordinateTransformationService (src/services/CoordinateTransformationService.ts) -/

structure Position3D where
  x : ℝ
  y : ℝ
  z : ℝ

structure Dimensions3D where
  width : ℝ
  height : ℝ
  depth : ℝ

/-- Source `CoordinateTransformationService.edgeToCenter`: edge-based position plus
half the dimension on each axis. -/
def edgeToCenter (edgePosition : Position3D) (dimensions : Dimensions3D) : Position3D :=
  { x := edgePosition.x + dimensions.width / 2
    y := edgePosition.y + dimensions.height / 2
    z := edgePosition.z + dimensions.depth / 2 }

/-- Source `CoordinateTransformationService.centerToEdge`: center-based position minus
half the dimension on each axis. -/
def centerToEdge (centerPosition : Position3D) (dimensions : Dimensions3D) : Position3D :=
  { x := centerPosition.x - dimensions.width / 2
    y := centerPosition.y - dimensions.height / 2
    z := centerPosition.z - dimensions.depth / 2 }

/-- Source `CoordinateTransformationService.toThreeJsPosition`: repackage a position
as a Three.js `[x, y, z]` triple. -/
def toThreeJsPosition (position : Position3D) : ℝ × ℝ × ℝ :=
  (position.x, position.y, position.z)

/-- Source `CoordinateTransformationService.edgeToThreeJs`: `edgeToCenter` followed by
`toThreeJsPosition`. -/
def edgeToThreeJs (edgePosition : Position3D) (dimensions : Dimensions3D) : ℝ × ℝ × ℝ :=
  toThreeJsPosition (edgeToCenter edgePosition dimensions)

/-! ## PanelSpacingService (src/services/PanelSpacingService.ts) -/

structure PanelSpecs where
  length : ℝ
  width : ℝ
  thickness : ℝ

inductive PanelOrientation
  | landscape
  | portrait
deriving DecidableEq

/-- Source `PlatformSpecs` of PanelSpacingService.  `panelMountOffset` is an optional
field in the source. -/
structure PlatformSpecs where
  tiltAngle : ℝ
  length : ℝ
  thickness : ℝ
  panelMountOffset : Option ℝ
  orientation : PanelOrientation

/-- Source `PanelSpacingService.getTiltAxisDimension`: panel length in portrait,
panel width in landscape. -/
def getTiltAxisDimension (panelSpecs : PanelSpecs) (orientation : PanelOrientation) : ℝ :=
  match orientation with
  | PanelOrientation.portrait => panelSpecs.length
  | PanelOrientation.landscape => panelSpecs.width

/-- Source `PanelSpacingService.calculateProjectedDepth`:
`D = tiltAxisDimension * cos(tiltAngle * PI / 180)`. -/
def calculateProjectedDepth (panelSpecs : PanelSpecs) (platformSpecs : PlatformSpecs) : ℝ :=
  let beta := platformSpecs.tiltAngle * Real.pi / 180
  let tiltAxisDimension := getTiltAxisDimension panelSpecs platformSpecs.orientation
  tiltAxisDimension * Real.cos beta

/-- Source `PanelSpacingService.calculateAirGap`: `G = connectorLength - D`. -/
def calculateAirGap (projectedDepth connectorLength : ℝ) : ℝ :=
  connectorLength - projectedDepth

structure SpacingCalculation where
  projectedDepth : ℝ
  airGap : ℝ
  rowSpacing : ℝ
  tiltAxisDimension : ℝ
  platformLength : ℝ
  singleColWidth : ℝ
  platformThickness : ℝ
  panelMountOffset : ℝ

/-- Source `PanelSpacingService.calculateSpacing`.  The source defaults a missing
`panelMountOffset` to `0.05` (`platformSpecs.panelMountOffset || 0.05`). -/
def calculateSpacing (panelSpecs : PanelSpecs) (platformSpecs : PlatformSpecs)
    (connectorLength : ℝ) : SpacingCalculation :=
  let orientation := platformSpecs.orientation
  let tiltAxisDimension := getTiltAxisDimension panelSpecs orientation
  let projectedDepth := calculateProjectedDepth panelSpecs platformSpecs
  let airGap := calculateAirGap projectedDepth connectorLength
  { projectedDepth := projectedDepth
    airGap := airGap
    rowSpacing := connectorLength
    platformLength := platformSpecs.length
    tiltAxisDimension := tiltAxisDimension
    singleColWidth :=
      match orientation with
      | PanelOrientation.landscape => panelSpecs.length
      | PanelOrientation.portrait => panelSpecs.width
    platformThickness := platformSpecs.thickness
    panelMountOffset := platformSpecs.panelMountOffset.getD 0.05 }

/-! ## Platform (src/components/solar-panels/Platform.tsx) -/

/-- Source `Platform` lines 30-32: `tiltRadians = -(tiltAngle * PI) / 180` and
`rearElevation = sin(abs(tiltRadians)) * PANEL_SPECS.width`.  The module-level
`PANEL_SPECS` constant is passed here as the `panelSpecs` argument; note the
source always uses the panel width (short side), never the orientation-made
tilt-axis dimension. -/
def rearElevation (panelSpecs : PanelSpecs) (tiltAngle : ℝ) : ℝ :=
  Real.sin |(-(tiltAngle * Real.pi) / 180)| * panelSpecs.width

/-! ## RoofSolarInstallation row/connector layout
(components/simulation/buildings/house/solar-panels/RoofSolarInstallation.tsx) -/

/-- One row of an installation: a column count and an optional connector
length to the next row.  JavaScript treats a connector length of `0` as
absent (falsy `rowConfig.connectorLength`); configurations use positive
lengths, so absence is modelled by `none`. -/
structure RowConfiguration where
  columns : ℕ
  connectorLength : Option ℝ

structure PanelPlacement where
  rowIndex : ℕ
  colIndex : ℕ
  position : ℝ × ℝ × ℝ
  dimensions : Dimensions3D

inductive ConnectorSide
  | left
  | right

structure ConnectorPlacement where
  rowIndex : ℕ
  side : ConnectorSide
  position : ℝ × ℝ × ℝ
  dimensions : Dimensions3D

/-- The `platformDimensions` object built for each row of the layout loop. -/
def rowPlatformDimensions (panelSpecs : PanelSpecs) (platformSpecs : PlatformSpecs)
    (rowConnectorLength : ℝ) : Dimensions3D :=
  let spacing := calculateSpacing panelSpecs platformSpecs rowConnectorLength
  { width := spacing.singleColWidth
    height := spacing.platformThickness
    depth := spacing.projectedDepth }

/-- The `for (let col = 0; col < rowConfig.columns; col++)` panel loop of one
row: each column gets a platform at edge position
`(col * singleColWidth, 0, currentZPosition)`. -/
def rowPanelPlacements (panelSpecs : PanelSpecs) (platformSpecs : PlatformSpecs)
    (rowConnectorLength : ℝ) (rowIndex : ℕ) (currentZPosition : ℝ) (columns : ℕ) :
    List PanelPlacement :=
  let spacing := calculateSpacing panelSpecs platformSpecs rowConnectorLength
  let platformDimensions := rowPlatformDimensions panelSpecs platformSpecs rowConnectorLength
  (List.range columns).map fun col =>
    { rowIndex := rowIndex
      colIndex := col
      position := edgeToThreeJs
        { x := (col : ℝ) * spacing.singleColWidth, y := 0, z := currentZPosition }
        platformDimensions
      dimensions := platformDimensions }

/-- The `if (rowConfig.connectorLength)` connector block of one row: two
connector meshes (left and right) of depth
`rowConnectorLength - spacing.projectedDepth`, centered in the air gap.
In the `some` branch `rowConnectorLength` equals the configured value. -/
def rowConnectorPlacements (panelSpecs : PanelSpecs) (platformSpecs : PlatformSpecs)
    (rowConfig : RowConfiguration) (rowIndex : ℕ) (currentZPosition : ℝ) :
    List ConnectorPlacement :=
  match rowConfig.connectorLength with
  | none => []
  | some rowConnectorLength =>
    let spacing := calculateSpacing panelSpecs platformSpecs rowConnectorLength
    let connectorStart := currentZPosition + spacing.projectedDepth
    let connectorEnd := currentZPosition + rowConnectorLength
    let connectorZ := (connectorStart + connectorEnd) / 2
    let connectorDimensions : Dimensions3D :=
      { width := 0.08
        height := spacing.platformThickness
        depth := rowConnectorLength - spacing.projectedDepth }
    [ { rowIndex := rowIndex
        side := ConnectorSide.left
        position := edgeToThreeJs
          { x := 0, y := 0, z := connectorZ - connectorDimensions.depth / 2 }
          connectorDimensions
        dimensions := connectorDimensions }
    , { rowIndex := rowIndex
        side := ConnectorSide.right
        position := edgeToThreeJs
          { x := spacing.singleColWidth * (rowConfig.columns : ℝ) - connectorDimensions.width
            y := 0
            z := connectorZ - connectorDimensions.depth / 2 }
          connectorDimensions
        dimensions := connectorDimensions }
    ]

/-- The update of `currentZPosition` at the end of each loop iteration:
`currentZPosition += rowConfig.connectorLength ? rowConnectorLength
: spacing.projectedDepth`. -/
def rowAdvance (panelSpecs : PanelSpecs) (platformSpecs : PlatformSpecs)
    (defaultConnectorLength : ℝ) (rowConfig : RowConfiguration) : ℝ :=
  let rowConnectorLength := rowConfig.connectorLength.getD defaultConnectorLength
  match rowConfig.connectorLength with
  | some _ => rowConnectorLength
  | none => (calculateSpacing panelSpecs platformSpecs rowConnectorLength).projectedDepth

/-- The row loop of `RoofSolarInstallation`, accumulating the `panels` and
`connectors` arrays while advancing `currentZPosition`. -/
def layoutRows (panelSpecs : PanelSpecs) (platformSpecs : PlatformSpecs)
    (defaultConnectorLength : ℝ) :
    List RowConfiguration → ℕ → ℝ → List PanelPlacement × List ConnectorPlacement
  | [], _, _ => ([], [])
  | rowConfig :: rest, rowIndex, currentZPosition =>
    let rowConnectorLength := rowConfig.connectorLength.getD defaultConnectorLength
    let rowPanels := rowPanelPlacements panelSpecs platformSpecs rowConnectorLength
      rowIndex currentZPosition rowConfig.columns
    let rowConnectors := rowConnectorPlacements panelSpecs platformSpecs rowConfig
      rowIndex currentZPosition
    let restResult := layoutRows panelSpecs platformSpecs defaultConnectorLength rest
      (rowIndex + 1) (currentZPosition + rowAdvance panelSpecs platformSpecs defaultConnectorLength rowConfig)
    (rowPanels ++ restResult.1, rowConnectors ++ restResult.2)

/-- Source `RoofSolarInstallation` with a `rowConfigurations` list: run the row loop
from `currentZPosition = 0`. -/
def roofSolarInstallation (panelSpecs : PanelSpecs) (platformSpecs : PlatformSpecs)
    (defaultConnectorLength : ℝ) (rowConfigurations : List RowConfiguration) :
    List PanelPlacement × List ConnectorPlacement :=
  layoutRows panelSpecs platformSpecs defaultConnectorLength rowConfigurations 0 0

/-- The successive values taken by `currentZPosition` at the top of each loop
iteration: the leading-edge offset of each row along the installation's
primary axis. -/
def rowStartOffsets (panelSpecs : PanelSpecs) (platformSpecs : PlatformSpecs)
    (defaultConnectorLength : ℝ) : List RowConfiguration → ℝ → List ℝ
  | [], _ => []
  | rowConfig :: rest, currentZPosition =>
    currentZPosition :: rowStartOffsets panelSpecs platformSpecs defaultConnectorLength rest
      (currentZPosition + rowAdvance panelSpecs platformSpecs defaultConnectorLength rowConfig)

/-- The row leading-edge offsets as claim C5 words them: row `i` is at the sum
over all prior rows of (projected depth + that row's connector length) when
the prior row has a connector, or just projected depth when it has none. -/
def specRowLeadingOffsets (projectedDepth : ℝ) (rows : List RowConfiguration) : List ℝ :=
  (List.range rows.length).map fun i =>
    ((rows.take i).map fun rowConfig =>
      match rowConfig.connectorLength with
      | some connectorLength => projectedDepth + connectorLength
      | none => projectedDepth).sum

/-- Projection used to state facts about produced connector geometry. -/
def connectorDepths (connectors : List ConnectorPlacement) : List ℝ :=
  connectors.map fun c => c.dimensions.depth

/-! ## Sun position post-processing
(components/simulation/core/ShadowSimulator.tsx, `calculateSunPosition`) -/

/-- JavaScript truncation toward zero, as used by the `%` operator. -/
def jsTrunc (r : ℝ) : ℤ :=
  if 0 ≤ r then ⌊r⌋ else ⌈r⌉

/-- The JavaScript remainder operator `x % y`: `x - y * trunc(x / y)`. -/
def jsMod (x y : ℝ) : ℝ :=
  x - y * jsTrunc (x / y)

structure SunPosition where
  azimuth : ℝ
  elevation : ℝ

/-- The post-processing of `calculateSunPosition`: SunCalc's raw altitude and
azimuth (radians; the SunCalc ephemeris itself is an external library, so its
outputs are taken as inputs here) are converted to degrees, the displayed
elevation clamped with `Math.max(0, ...)` and the azimuth remapped with
`(... + 180) % 360`. -/
def calculateSunPosition (rawAltitude rawAzimuth : ℝ) : SunPosition :=
  { elevation := max 0 (rawAltitude * 180 / Real.pi)
    azimuth := jsMod (rawAzimuth * 180 / Real.pi + 180) 360 }

/-! ## Scene3D lights and SmartSolarCell per-tick update
(components/simulation/core/Scene3D.tsx, components/solar-panels/SmartSolarCell.tsx) -/

/-- The far "sun-light" directional light's intensity in `Scene3D`:
`sunPosition.elevation > 0 ? 0.0001 : 0.0`. -/
def sunLightIntensity (sunPosition : SunPosition) : ℝ :=
  if sunPosition.elevation > 0 then 0.0001 else 0

/-- The visual directional light's intensity in `Scene3D`:
`sunPosition.elevation > 0 ? 0.8 : 0.0`. -/
def visualLightIntensity (sunPosition : SunPosition) : ℝ :=
  if sunPosition.elevation > 0 then 0.8 else 0

/-- Source `SmartSolarCell`'s per-tick update: when the directional light found in
the scene has `intensity > 0` the five-point sampling runs and its result is
stored; otherwise no sampling happens and the stored shadow intensity is 0. -/
def smartSolarCellIntensity (lightIntensity : ℝ) (sampledIntensity : ℝ) : ℝ :=
  if lightIntensity > 0 then sampledIntensity else 0

/-! ## SmartSolarCell occlusion sampling -/

structure Vec3 where
  x : ℝ
  y : ℝ
  z : ℝ

/-- A geometry bounding box, as computed by `geometry.computeBoundingBox()`. -/
structure Box3 where
  min : Vec3
  max : Vec3

/-- Source `SmartSolarCell`'s sample points, in source order: the four bounding-box
corners (two at max z, two at min z) mapped through the mesh's local-to-world
`matrixWorld` transform, with the mesh's world position as center, ordered
top-left, top-right, center, bottom-left, bottom-right. -/
def samplePoints (matrixWorld : Vec3 → Vec3) (bbox : Box3) (worldPos : Vec3) :
    List Vec3 :=
  [ matrixWorld { x := bbox.min.x, y := bbox.min.y, z := bbox.max.z }
  , matrixWorld { x := bbox.max.x, y := bbox.min.y, z := bbox.max.z }
  , worldPos
  , matrixWorld { x := bbox.min.x, y := bbox.max.y, z := bbox.min.z }
  , matrixWorld { x := bbox.max.x, y := bbox.max.y, z := bbox.min.z } ]

/-- The per-cell occlusion sampling result: the count of sample points whose
`checkShadow` test is positive, divided by the number of sample points
(`intensity = shadowedPoints / samplePoints.length`).  The ray query against
the scene is abstracted as the per-point predicate `blocked`. -/
def cellSampleIntensity (blocked : Vec3 → Bool) (matrixWorld : Vec3 → Vec3)
    (bbox : Box3) (worldPos : Vec3) : ℝ :=
  let pts := samplePoints matrixWorld bbox worldPos
  (pts.countP blocked : ℝ) / (pts.length : ℝ)

/-- One entry of the ordered raycaster hits inspected by `checkShadow`:
whether the hit object is the cell's own mesh, the hit distance, whether the
hit object's geometry is a `BoxGeometry`, and that box geometry's parameters
(meaningful when `isBoxGeometry` is true; the source reads them only in that
branch). -/
structure Intersection where
  objectIsSelf : Bool
  distance : ℝ
  isBoxGeometry : Bool
  width : ℝ
  height : ℝ
  depth : ℝ

/-- The hit classification inside `checkShadow`'s `intersects.some(...)`
callback: the cell's own mesh never blocks, hits with distance below 0.1 or
above 50 never block, box-geometry hits block when one dimension exceeds 0.2,
and any other geometry blocks unconditionally. -/
def isBlocker (hit : Intersection) : Prop :=
  if hit.objectIsSelf then False
  else if hit.distance < 0.1 then False
  else if hit.distance > 50 then False
  else if hit.isBoxGeometry then
    hit.width > 0.2 ∨ hit.height > 0.2 ∨ hit.depth > 0.2
  else True

/-- Source `checkShadow`: some hit of the ray query is classified as a blocker. -/
def checkShadow (hits : List Intersection) : Prop :=
  ∃ hit ∈ hits, isBlocker hit

/-- The blocker condition as claim C6 words it: not the cell's own mesh,
distance strictly above the epsilon 0.1 and strictly below the maximum range
50, and bounding extent above 0.2 in at least one dimension. -/
def claimBlockerCondition (hit : Intersection) : Prop :=
  hit.objectIsSelf = false ∧ 0.1 < hit.distance ∧ hit.distance < 50 ∧
    (0.2 < hit.width ∨ 0.2 < hit.height ∨ 0.2 < hit.depth)

/-- Source `SmartSolarCell.getShadowOpacity`: opacity 0.8 at zero shadow intensity,
otherwise `0.9 - shadowIntensity * 0.3`. -/
def getShadowOpacity (shadowIntensity : ℝ) : ℝ :=
  if shadowIntensity = 0 then 0.8 else 0.9 - shadowIntensity * 0.3

/-! ## Calendar and timezone conversion
(`calculateSunPosition`'s date handling and date-fns-tz's `fromZonedTime`) -/

def isLeapYear (y : ℕ) : Bool :=
  (y % 4 == 0 && y % 100 != 0) || (y % 400 == 0)

def daysInMonth (y m : ℕ) : ℕ :=
  if m = 2 then (if isLeapYear y then 29 else 28)
  else if m = 4 ∨ m = 6 ∨ m = 9 ∨ m = 11 then 30
  else 31

/-- Days from 1970-01-01 to the start of year `y`. -/
def daysBeforeYear (y : ℕ) : ℕ :=
  ((List.range (y - 1970)).map fun i => if isLeapYear (1970 + i) then 366 else 365).sum

/-- Days from 1970-01-01 to the civil date `y-m-d` (month and day 1-based). -/
def daysSinceEpoch (y m d : ℕ) : ℕ :=
  daysBeforeYear y + ((List.range (m - 1)).map fun i => daysInMonth y (i + 1)).sum + (d - 1)

/-- Day of the week with 0 = Sunday; 1970-01-01 was a Thursday (= 4). -/
def dayOfWeek (days : ℕ) : ℕ :=
  (days + 4) % 7

/-- The day-of-month of the last Sunday of month `m` of year `y`. -/
def lastSundayOfMonth (y m : ℕ) : ℕ :=
  daysInMonth y m - dayOfWeek (daysSinceEpoch y m (daysInMonth y m))

/-- Modelled from the spec: the repository converts wall-clock local time to
UTC with `fromZonedTime(nlLocalTime, houseSettings.location.timezone)` from
the external date-fns-tz library, which the spec says "handles daylight-saving
transitions automatically" for the configured IANA timezone
(`Europe/Amsterdam`); the library and the IANA database are not under src/,
so the zone's offset rules are modelled here: CEST (UTC+2) applies from the
last Sunday of March 02:00 local to the last Sunday of October 03:00 local,
CET (UTC+1) otherwise (the EU daylight-saving rule, valid for the simulated
years). -/
def amsterdamOffsetMinutes (y m d hh mm : ℕ) : ℤ :=
  let localMinutes : ℤ := (daysSinceEpoch y m d : ℤ) * 1440 + hh * 60 + mm
  let dstStart : ℤ := (daysSinceEpoch y 3 (lastSundayOfMonth y 3) : ℤ) * 1440 + 2 * 60
  let dstEnd : ℤ := (daysSinceEpoch y 10 (lastSundayOfMonth y 10) : ℤ) * 1440 + 3 * 60
  if dstStart ≤ localMinutes ∧ localMinutes < dstEnd then 120 else 60

/-- Source `fromZonedTime` for Europe/Amsterdam: the UTC instant (minutes since the
epoch) of the wall-clock local time `y-m-d hh:mm`. -/
def fromZonedTimeAmsterdam (y m d hh mm : ℕ) : ℤ :=
  (daysSinceEpoch y m d : ℤ) * 1440 + hh * 60 + mm - amsterdamOffsetMinutes y m d hh mm

/-- Source `calculateSunPosition`'s date handling: split the decimal hour as
`hours = Math.floor(timeHours)` and `minutes = Math.floor((timeHours % 1) * 60)`
(for nonnegative `timeHours` the JavaScript `% 1` is the fractional part),
then convert the Netherlands wall-clock time to a UTC instant. -/
def utcInstantMinutes (year month day : ℕ) (timeHours : ℚ) : ℤ :=
  let hours := (⌊timeHours⌋).toNat
  let minutes := (⌊(timeHours - ⌊timeHours⌋) * 60⌋).toNat
  fromZonedTimeAmsterdam year month day hours minutes

/-- A concrete panel spec used for concrete evaluations: 2 m by 1 m by 4 cm. -/
def testPanelSpecs : PanelSpecs :=
  { length := 2, width := 1, thickness := 1 / 25 }

/-- A concrete landscape platform spec with tilt angle 0 degrees, so the
projected depth equals the panel width exactly. -/
def testPlatformSpecs : PlatformSpecs :=
  { tiltAngle := 0
    length := 23 / 20
    thickness := 2 / 25
    panelMountOffset := some (3 / 20)
    orientation := PanelOrientation.landscape }

end

/-! ## Theorems -/

/-- Helper: the `projectedDepth` field of `calculateSpacing` is
`calculateProjectedDepth` and does not depend on the connector length. -/
theorem calculateSpacing_projectedDepth (panelSpecs : PanelSpecs)
    (platformSpecs : PlatformSpecs) (connectorLength : ℝ) :
    (calculateSpacing panelSpecs platformSpecs connectorLength).projectedDepth
      = calculateProjectedDepth panelSpecs platformSpecs := rfl

/-- Helper: with tilt angle 0 and landscape orientation the projected depth is
exactly the panel width, here 1. -/
theorem testProjectedDepth_eq_one :
    calculateProjectedDepth testPanelSpecs testPlatformSpecs = 1 := by
  simp [calculateProjectedDepth, getTiltAxisDimension, testPanelSpecs, testPlatformSpecs]

/-- C7 (amended): for landscape orientation — where the tilt-axis dimension is
the panel width used by `Platform`'s `rearElevation` — the projected depth
`D = W*cos(beta)` and rear elevation `H = W*sin(beta)` satisfy
`D^2 + H^2 = W^2` exactly. -/
theorem pythagorean_identity_landscape (ps : PanelSpecs) (S : PlatformSpecs)
    (h : S.orientation = PanelOrientation.landscape) :
    calculateProjectedDepth ps S ^ 2 + rearElevation ps S.tiltAngle ^ 2
      = getTiltAxisDimension ps S.orientation ^ 2 := by
  have habs : -(S.tiltAngle * Real.pi) / 180 = -(S.tiltAngle * Real.pi / 180) := by ring
  simp only [calculateProjectedDepth, rearElevation, getTiltAxisDimension, h, habs, abs_neg]
  have hs : Real.sin |S.tiltAngle * Real.pi / 180| ^ 2
      = Real.sin (S.tiltAngle * Real.pi / 180) ^ 2 := by
    rcases abs_choice (S.tiltAngle * Real.pi / 180) with h' | h' <;> rw [h']
    rw [Real.sin_neg]; ring
  nlinarith [Real.sin_sq_add_cos_sq (S.tiltAngle * Real.pi / 180), hs]

/-- Witness for C7's theorem at a concrete landscape spec. -/
theorem pythagorean_identity_landscape_witness :
    calculateProjectedDepth testPanelSpecs testPlatformSpecs ^ 2
        + rearElevation testPanelSpecs testPlatformSpecs.tiltAngle ^ 2
      = getTiltAxisDimension testPanelSpecs testPlatformSpecs.orientation ^ 2 :=
  pythagorean_identity_landscape testPanelSpecs testPlatformSpecs rfl

/-- C7 counterexample: for a portrait spec with tilt angle 45 degrees and a
2 m by 1 m panel, `Platform`'s rear elevation still uses the panel width while
the projected depth uses the panel length, so `D^2 + H^2` is `5/2`, not the
squared tilt-axis dimension `4`. -/
theorem pythagorean_identity_portrait_counterexample :
    calculateProjectedDepth { length := 2, width := 1, thickness := 1 / 25 }
        { tiltAngle := 45, length := 23 / 20, thickness := 2 / 25,
          panelMountOffset := none, orientation := PanelOrientation.portrait } ^ 2
      + rearElevation { length := 2, width := 1, thickness := 1 / 25 } (45 : ℝ) ^ 2
      ≠ getTiltAxisDimension { length := 2, width := 1, thickness := 1 / 25 }
          PanelOrientation.portrait ^ 2 := by
  simp only [calculateProjectedDepth, rearElevation, getTiltAxisDimension]
  have h1 : (45 : ℝ) * Real.pi / 180 = Real.pi / 4 := by ring
  have h2 : -((45 : ℝ) * Real.pi) / 180 = -(Real.pi / 4) := by ring
  rw [h1, h2, abs_neg, abs_of_nonneg (by positivity : (0 : ℝ) ≤ Real.pi / 4),
    Real.cos_pi_div_four, Real.sin_pi_div_four]
  have hs2 : Real.sqrt 2 ^ 2 = 2 := Real.sq_sqrt (by norm_num)
  intro h
  nlinarith [hs2, h]

/-- C5 (amended): the leading-edge offset of row `i` is the starting offset
plus the cumulative sum over all prior rows of `rowAdvance` — that row's connector
length when it has one (the connector length is the full row pitch, replacing
the projected depth), or just the projected depth when it has none. -/
theorem rowStartOffsets_cumulative (P : PanelSpecs) (S : PlatformSpecs)
    (dflt : ℝ) (rows : List RowConfiguration) (z : ℝ) :
    rowStartOffsets P S dflt rows z
      = (List.range rows.length).map
          (fun i => z + ((rows.take i).map (rowAdvance P S dflt)).sum) := by
  induction rows generalizing z with
  | nil => simp [rowStartOffsets]
  | cons rc rest ih =>
    rw [rowStartOffsets, ih]
    simp only [List.length_cons, List.range_succ_eq_map, List.map_cons, List.map_map,
      List.take_zero, List.map_nil, List.sum_nil, add_zero, List.cons.injEq, true_and]
    apply List.map_congr_left
    intro i _
    simp only [Function.comp_apply, List.take_succ_cons, List.map_cons, List.sum_cons]
    ring

/-- C5 counterexample: for a two-row chain with projected depth 1 and a
connector of length 3 on the first row, the loop places row 1 at offset 3
(the connector length alone), while the claim's formula
(projected depth + connector length) predicts offset 4. -/
theorem rowStartOffsets_ne_spec_formula :
    rowStartOffsets testPanelSpecs testPlatformSpecs (33 / 25)
        [{ columns := 1, connectorLength := some 3 },
         { columns := 1, connectorLength := none }] 0
      = [0, 3]
    ∧ specRowLeadingOffsets (calculateProjectedDepth testPanelSpecs testPlatformSpecs)
        [{ columns := 1, connectorLength := some 3 },
         { columns := 1, connectorLength := none }]
      = [0, 4]
    ∧ ([0, 3] : List ℝ) ≠ [0, 4] := by
  refine ⟨?_, ?_, by norm_num⟩
  · rw [rowStartOffsets, rowStartOffsets, rowStartOffsets]
    simp [rowAdvance]
  · simp [specRowLeadingOffsets, List.range_succ, testProjectedDepth_eq_one]
    norm_num

/-- C1 (amended): the layout loop never fails.  A row with a connector length
`p` always yields exactly two connector meshes whose depth is the air gap
`G = p - D`; when `p < D` that depth is negative and the geometry is produced
anyway; a row with zero columns yields no panels (but its connectors are
still produced).  No `LayoutError` exists in the code. -/
theorem layout_silently_produces_geometry (P : PanelSpecs) (S : PlatformSpecs)
    (dflt z : ℝ) (i n : ℕ) (p : ℝ) :
    connectorDepths (layoutRows P S dflt [{ columns := n, connectorLength := some p }] i z).2
        = [calculateAirGap (calculateProjectedDepth P S) p,
           calculateAirGap (calculateProjectedDepth P S) p]
    ∧ (p < calculateProjectedDepth P S →
        calculateAirGap (calculateProjectedDepth P S) p < 0)
    ∧ (layoutRows P S dflt [{ columns := 0, connectorLength := some p }] i z).1 = [] := by
  refine ⟨?_, ?_, ?_⟩
  · simp [layoutRows, rowConnectorPlacements, connectorDepths,
      calculateSpacing_projectedDepth, calculateAirGap]
  · intro hp
    simp only [calculateAirGap]
    linarith
  · simp [layoutRows, rowPanelPlacements]

/-- Witness for C1's amended theorem: with projected depth 1 and connector
length 1/2 the produced connector depth (the air gap) is negative. -/
theorem layout_silently_produces_geometry_witness :
    calculateAirGap (calculateProjectedDepth testPanelSpecs testPlatformSpecs) (1 / 2) < 0 :=
  (layout_silently_produces_geometry testPanelSpecs testPlatformSpecs (33 / 25) 0 0 0
    (1 / 2)).2.1 (by rw [testProjectedDepth_eq_one]; norm_num)

/-- C1 counterexample: a one-row installation with zero columns and connector
length 1/2 < projected depth 1 does not fail: the layout still produces two
connector meshes, of negative depth -(1/2), and no error value exists. -/
theorem layout_no_failure_counterexample :
    connectorDepths (roofSolarInstallation testPanelSpecs testPlatformSpecs (33 / 25)
        [{ columns := 0, connectorLength := some (1 / 2) }]).2
      = [-(1 / 2), -(1 / 2)]
    ∧ (-(1 / 2) : ℝ) < 0
    ∧ (roofSolarInstallation testPanelSpecs testPlatformSpecs (33 / 25)
        [{ columns := 0, connectorLength := some (1 / 2) }]).1 = [] := by
  refine ⟨?_, by norm_num, ?_⟩
  · simp [roofSolarInstallation, layoutRows, rowConnectorPlacements, connectorDepths,
      calculateSpacing_projectedDepth, testProjectedDepth_eq_one]
    norm_num
  · simp [roofSolarInstallation, layoutRows, rowPanelPlacements]

/-- C10: the edge-based/center-based coordinate transforms are mutual inverses
on each axis: `centerToEdge (edgeToCenter p d) d = p` and
`edgeToCenter (centerToEdge p d) d = p`. -/
theorem edgeToCenter_centerToEdge_inverse (p : Position3D) (d : Dimensions3D) :
    centerToEdge (edgeToCenter p d) d = p ∧ edgeToCenter (centerToEdge p d) d = p := by
  constructor <;>
    · simp only [edgeToCenter, centerToEdge]
      cases p
      simp only [Position3D.mk.injEq]
      refine ⟨by ring, by ring, by ring⟩

/-- Helper: for nonnegative `x`, the JavaScript remainder `x % 360` is
`360 * Int.fract (x / 360)`. -/
theorem jsMod_eq_fract (x : ℝ) (hx : 0 ≤ x) :
    jsMod x 360 = 360 * Int.fract (x / 360) := by
  rw [jsMod, jsTrunc, if_pos (by positivity : (0 : ℝ) ≤ x / 360), Int.fract]
  ring

/-- C4: the displayed elevation `max(0, altitude in degrees)` is nonnegative,
and the remapped azimuth `(azimuth in degrees + 180) % 360` lies in
`[0, 360)`, given SunCalc's atan2-ranged raw azimuth in `[-pi, pi]`. -/
theorem calculateSunPosition_ranges (rawAltitude rawAzimuth : ℝ)
    (h1 : -Real.pi ≤ rawAzimuth) (h2 : rawAzimuth ≤ Real.pi) :
    0 ≤ (calculateSunPosition rawAltitude rawAzimuth).elevation
    ∧ 0 ≤ (calculateSunPosition rawAltitude rawAzimuth).azimuth
    ∧ (calculateSunPosition rawAltitude rawAzimuth).azimuth < 360 := by
  have hpi : 0 < Real.pi := Real.pi_pos
  refine ⟨le_max_left _ _, ?_, ?_⟩ <;>
  · have hlow : -180 ≤ rawAzimuth * 180 / Real.pi := by
      have h' : (-Real.pi * 180) / Real.pi ≤ (rawAzimuth * 180) / Real.pi :=
        (div_le_div_iff_of_pos_right hpi).mpr (by nlinarith)
      have hval : (-Real.pi * 180) / Real.pi = -180 := by
        field_simp
        ring
      linarith [hval ▸ h']
    have hhigh : rawAzimuth * 180 / Real.pi ≤ 180 := by
      have h' : (rawAzimuth * 180) / Real.pi ≤ (Real.pi * 180) / Real.pi :=
        (div_le_div_iff_of_pos_right hpi).mpr (by nlinarith)
      have hval : (Real.pi * 180) / Real.pi = 180 := by
        field_simp
      linarith [hval ▸ h']
    have hx : 0 ≤ rawAzimuth * 180 / Real.pi + 180 := by linarith
    have hmod : (calculateSunPosition rawAltitude rawAzimuth).azimuth
        = 360 * Int.fract ((rawAzimuth * 180 / Real.pi + 180) / 360) := by
      simp only [calculateSunPosition]
      exact jsMod_eq_fract _ hx
    rw [hmod]
    have hf0 := Int.fract_nonneg ((rawAzimuth * 180 / Real.pi + 180) / 360)
    have hf1 := Int.fract_lt_one ((rawAzimuth * 180 / Real.pi + 180) / 360)
    linarith

/-- Witness for C4's theorem at raw altitude -1, raw azimuth 0. -/
theorem calculateSunPosition_ranges_witness :
    0 ≤ (calculateSunPosition (-1) 0).elevation
    ∧ 0 ≤ (calculateSunPosition (-1) 0).azimuth
    ∧ (calculateSunPosition (-1) 0).azimuth < 360 :=
  calculateSunPosition_ranges (-1) 0 (neg_nonpos_of_nonneg Real.pi_pos.le) Real.pi_pos.le

/-- C2: when the raw altitude is at most 0 the clamped elevation is 0, both
directional lights of `Scene3D` get intensity 0, and `SmartSolarCell`'s
per-tick update takes the no-sampling branch and stores intensity 0 — for
every possible sampled value, i.e. regardless of the occluders present. -/
theorem night_forces_zero_intensity (rawAltitude rawAzimuth sampledIntensity : ℝ)
    (h : rawAltitude ≤ 0) :
    smartSolarCellIntensity
        (sunLightIntensity (calculateSunPosition rawAltitude rawAzimuth)) sampledIntensity = 0
    ∧ smartSolarCellIntensity
        (visualLightIntensity (calculateSunPosition rawAltitude rawAzimuth)) sampledIntensity
      = 0 := by
  have helev : (calculateSunPosition rawAltitude rawAzimuth).elevation = 0 := by
    simp only [calculateSunPosition]
    apply max_eq_left
    have h180 : rawAltitude * 180 ≤ 0 := by nlinarith
    exact div_nonpos_iff.mpr (Or.inr ⟨h180, Real.pi_pos.le⟩)
  constructor <;>
    simp [smartSolarCellIntensity, sunLightIntensity, visualLightIntensity, helev]

/-- Witness for C2's theorem at raw altitude -1 with sampled value 3/5. -/
theorem night_forces_zero_intensity_witness :
    smartSolarCellIntensity
        (sunLightIntensity (calculateSunPosition (-1) 0)) (3 / 5) = 0
    ∧ smartSolarCellIntensity
        (visualLightIntensity (calculateSunPosition (-1) 0)) (3 / 5) = 0 :=
  night_forces_zero_intensity (-1) 0 (3 / 5) (by norm_num)

/-- C8: the sampler evaluates exactly five sample points (four corners plus
center) and returns (count of blocked samples) / 5, so the intensity lies in
`[0, 1]` and is a multiple of 1/5. -/
theorem sampleOcclusion_five_points (blocked : Vec3 → Bool)
    (matrixWorld : Vec3 → Vec3) (bbox : Box3) (worldPos : Vec3) :
    (samplePoints matrixWorld bbox worldPos).length = 5
    ∧ cellSampleIntensity blocked matrixWorld bbox worldPos
        = ((samplePoints matrixWorld bbox worldPos).countP blocked : ℝ) / 5
    ∧ 0 ≤ cellSampleIntensity blocked matrixWorld bbox worldPos
    ∧ cellSampleIntensity blocked matrixWorld bbox worldPos ≤ 1
    ∧ ∃ k : ℕ, k ≤ 5 ∧
        cellSampleIntensity blocked matrixWorld bbox worldPos = (k : ℝ) / 5 := by
  have hlen : (samplePoints matrixWorld bbox worldPos).length = 5 := rfl
  have hcount : (samplePoints matrixWorld bbox worldPos).countP blocked ≤ 5 := by
    have h := List.countP_le_length (p := blocked) (l := samplePoints matrixWorld bbox worldPos)
    rwa [hlen] at h
  have hint : cellSampleIntensity blocked matrixWorld bbox worldPos
      = ((samplePoints matrixWorld bbox worldPos).countP blocked : ℝ) / 5 := by
    have h : cellSampleIntensity blocked matrixWorld bbox worldPos
        = ((samplePoints matrixWorld bbox worldPos).countP blocked : ℝ)
          / ((samplePoints matrixWorld bbox worldPos).length : ℝ) := rfl
    rw [h, hlen]
    norm_num
  refine ⟨hlen, hint, ?_, ?_,
    ⟨(samplePoints matrixWorld bbox worldPos).countP blocked, hcount, hint⟩⟩
  · rw [hint]; positivity
  · rw [hint, div_le_one (by norm_num : (0 : ℝ) < 5)]
    exact_mod_cast hcount

/-- C6 counterexample: a hit on a non-box geometry (for example the chimney's
cylindrical pipe or a line segment) at distance 1 with bounding extent 0.05 in
every dimension is classified as a blocker by the code, although no dimension
of its extent exceeds the 0.2 threshold required by the claim. -/
theorem isBlocker_size_filter_counterexample :
    isBlocker
      { objectIsSelf := false
        distance := 1
        isBoxGeometry := false
        width := 1 / 20
        height := 1 / 20
        depth := 1 / 20 }
    ∧ ¬ claimBlockerCondition
      { objectIsSelf := false
        distance := 1
        isBoxGeometry := false
        width := 1 / 20
        height := 1 / 20
        depth := 1 / 20 } := by
  constructor
  · simp only [isBlocker]
    norm_num
  · simp only [claimBlockerCondition]
    norm_num

/-- C6 (amended): a hit is classified as a blocker if and only if it is not
the cell's own mesh, its distance is at least 0.1 and at most 50 (both bounds
inclusive), and — only when the hit geometry is a box — one box dimension
exceeds 0.2; non-box geometry blocks regardless of extent. -/
theorem isBlocker_characterization (hit : Intersection) :
    isBlocker hit ↔
      hit.objectIsSelf = false ∧ 0.1 ≤ hit.distance ∧ hit.distance ≤ 50 ∧
        (hit.isBoxGeometry = true → (0.2 < hit.width ∨ 0.2 < hit.height ∨ 0.2 < hit.depth)) := by
  rcases hit with ⟨s, d, b, w, h, dp⟩
  simp only [isBlocker]
  split_ifs with hs h1 h2 hb
  · simp [hs]
  · simp only [false_iff]
    rintro ⟨-, hd, -, -⟩
    linarith
  · simp only [false_iff]
    rintro ⟨-, -, hd, -⟩
    linarith
  · simp only [Bool.not_eq_true] at hs
    constructor
    · intro hx
      exact ⟨hs, not_lt.mp h1, not_lt.mp h2, fun _ => hx⟩
    · rintro ⟨-, -, -, himp⟩
      exact himp hb
  · simp only [Bool.not_eq_true] at hs hb
    simp [hs, hb, not_lt.mp h1, not_lt.mp h2]

/-- C9 counterexample: shadow intensity 0 maps to opacity 0.8 while the larger
intensity 1/5 maps to opacity 0.84, so opacity is not monotonically
decreasing in intensity. -/
theorem getShadowOpacity_not_monotone_counterexample :
    (0 : ℝ) < 1 / 5 ∧ getShadowOpacity 0 < getShadowOpacity (1 / 5) := by
  constructor
  · norm_num
  · rw [getShadowOpacity, getShadowOpacity, if_pos rfl, if_neg (by norm_num)]
    norm_num

/-- C9 (amended): on positive intensities the opacity `0.9 - 0.3 * intensity`
is strictly decreasing as intensity rises; only the special zero-intensity
opacity 0.8 breaks monotonicity at the boundary. -/
theorem getShadowOpacity_strictAnti_on_pos (a b : ℝ) (ha : 0 < a) (hab : a < b) :
    getShadowOpacity b < getShadowOpacity a := by
  rw [getShadowOpacity, getShadowOpacity, if_neg (by linarith), if_neg (by linarith)]
  nlinarith

/-- Witness for C9's amended theorem at intensities 1/5 < 2/5. -/
theorem getShadowOpacity_strictAnti_on_pos_witness :
    getShadowOpacity (2 / 5) < getShadowOpacity (1 / 5) :=
  getShadowOpacity_strictAnti_on_pos (1 / 5) (2 / 5) (by norm_num) (by norm_num)

/-- Helper: concrete calendar facts for 2024, verified by evaluation. -/
theorem calendar_facts_2024 :
    daysSinceEpoch 2024 1 15 = 19737 ∧ daysSinceEpoch 2024 7 15 = 19919
    ∧ lastSundayOfMonth 2024 3 = 31 ∧ lastSundayOfMonth 2024 10 = 27
    ∧ daysSinceEpoch 2024 3 31 = 19813 ∧ daysSinceEpoch 2024 10 27 = 20023 := by
  refine ⟨by decide, by decide, by decide, by decide, by decide, by decide⟩

/-- Helper: on 2024-01-15 the Amsterdam offset is CET (+60 minutes) and on
2024-07-15 it is CEST (+120 minutes), for every wall-clock time of day. -/
theorem amsterdamOffset_2024_winter_summer (hh mm : ℕ) (hh24 : hh < 24) (mm60 : mm < 60) :
    amsterdamOffsetMinutes 2024 1 15 hh mm = 60
    ∧ amsterdamOffsetMinutes 2024 7 15 hh mm = 120 := by
  obtain ⟨e1, e2, e3, e4, e5, e6⟩ := calendar_facts_2024
  constructor
  · simp only [amsterdamOffsetMinutes, e1, e3, e4, e5, e6]
    rw [if_neg]
    omega
  · simp only [amsterdamOffsetMinutes, e2, e3, e4, e5, e6]
    rw [if_pos]
    omega

/-- C3: for a fixed wall-clock decimal hour, the UTC instants of the winter
date 2024-01-15 and the summer date 2024-07-15 differ by exactly the 182-day
whole-day difference minus one hour, because the Europe/Amsterdam conversion
applies CET in winter and CEST in summer: the conversion is DST-aware, not a
fixed UTC offset. -/
theorem utcInstant_dst_aware (t : ℚ) (h0 : 0 ≤ t) (h24 : t < 24) :
    utcInstantMinutes 2024 7 15 t - utcInstantMinutes 2024 1 15 t
      = 182 * 1440 - 60 := by
  have hh24 : (⌊t⌋).toNat < 24 := by
    have hlt : ⌊t⌋ < 24 := Int.floor_lt.mpr (by exact_mod_cast h24)
    have hge : 0 ≤ ⌊t⌋ := Int.floor_nonneg.mpr h0
    omega
  have mm60 : (⌊(t - ⌊t⌋) * 60⌋).toNat < 60 := by
    have hf0 : 0 ≤ t - ⌊t⌋ := by linarith [Int.floor_le t]
    have hf1 : t - ⌊t⌋ < 1 := by linarith [Int.lt_floor_add_one t]
    have hm : (t - ⌊t⌋) * 60 < 60 := by nlinarith
    have hlt : ⌊(t - ⌊t⌋) * 60⌋ < 60 := Int.floor_lt.mpr (by exact_mod_cast hm)
    have hge : 0 ≤ ⌊(t - ⌊t⌋) * 60⌋ :=
      Int.floor_nonneg.mpr (by positivity)
    omega
  obtain ⟨hw, hs⟩ := amsterdamOffset_2024_winter_summer _ _ hh24 mm60
  obtain ⟨e1, e2, _, _, _, _⟩ := calendar_facts_2024
  simp only [utcInstantMinutes, fromZonedTimeAmsterdam, hw, hs, e1, e2]
  ring

/-- Witness for C3's theorem at decimal hour 6.3. -/
theorem utcInstant_dst_aware_witness :
    utcInstantMinutes 2024 7 15 (63 / 10) - utcInstantMinutes 2024 1 15 (63 / 10)
      = 182 * 1440 - 60 :=
  utcInstant_dst_aware (63 / 10) (by norm_num) (by norm_num)
